import Mathlib

set_option maxRecDepth 100000

/-!
Verification development for the thermal-image static-site builder
(`build_site.py`).  The pipeline's data transformations are embedded
shallowly: radiometric decoding, colorize normalization, the Float32
buffer serialization, EXIF/GPS metadata extraction, the SHA-1 path
fingerprint used for Shot ids, and the per-capture-set build loop.
Machine floats are modelled with exact rationals (the float literals of
the source appear as their decimal values); byte strings and digital
numbers are `Nat`; Python exceptions are `Except Unit`.
-/

namespace ThermalSite

/-! ## SHA-1 (`hashlib.sha1`), as used by `sha1_name`

32-bit words are `Nat` reduced mod `2^32`.  The implementation follows
FIPS 180 exactly: pad, split into 64-byte chunks, extend each chunk to
80 words, run 80 rounds, add into the running state, emit the five
state words big-endian and hex-encode them (lowercase, as `hexdigest`). -/

/-- Truncate to a 32-bit word. -/
def maskW (n : Nat) : Nat := n % 4294967296

/-- Rotate a 32-bit word left by `b` bits. -/
def rotl (b n : Nat) : Nat := maskW ((n <<< b) ||| (n >>> (32 - b)))

/-- Big-endian bytes of a 32-bit word. -/
def be32 (w : Nat) : List Nat :=
  [w / 16777216 % 256, w / 65536 % 256, w / 256 % 256, w % 256]

/-- Big-endian bytes of a 64-bit length field. -/
def be64 (n : Nat) : List Nat :=
  [n / 72057594037927936 % 256, n / 281474976710656 % 256,
   n / 1099511627776 % 256, n / 4294967296 % 256,
   n / 16777216 % 256, n / 65536 % 256, n / 256 % 256, n % 256]

/-- Group bytes into big-endian 32-bit words (trailing fragment dropped;
the input is always a multiple of 4 bytes here). -/
def beWords : List Nat → List Nat
  | b0 :: b1 :: b2 :: b3 :: rest =>
      (((b0 * 256 + b1) * 256 + b2) * 256 + b3) :: beWords rest
  | _ => []

/-- SHA-1 message padding: `0x80`, zeros to 56 mod 64, then the
64-bit big-endian bit length. -/
def sha1Pad (msg : List Nat) : List Nat :=
  let padZeros := (119 - msg.length % 64) % 64
  msg ++ 128 :: List.replicate padZeros 0 ++ be64 (8 * msg.length)

/-- Split a byte list into 64-byte chunks (fuel-based structural
recursion so that proofs can evaluate it; the fuel is the list length,
which always suffices). -/
def chunksAux : Nat → List Nat → List (List Nat)
  | 0, _ => []
  | _, [] => []
  | fuel + 1, b :: rest => ((b :: rest).take 64) :: chunksAux fuel ((b :: rest).drop 64)

/-- Split a byte list into 64-byte chunks. -/
def chunks64 (l : List Nat) : List (List Nat) := chunksAux l.length l

/-- Extend the 16 message words by `k` more words. -/
def sha1Extend : Nat → List Nat → List Nat
  | 0, w => w
  | k + 1, w =>
      let i := w.length
      let x := rotl 1 ((w.getD (i - 3) 0 ^^^ w.getD (i - 8) 0) ^^^
                       (w.getD (i - 14) 0 ^^^ w.getD (i - 16) 0))
      sha1Extend k (w ++ [x])

/-- Round function: choice, parity, majority, parity. -/
def sha1F (i b c d : Nat) : Nat :=
  if i < 20 then (b &&& c) ||| ((b ^^^ 4294967295) &&& d)
  else if i < 40 then b ^^^ c ^^^ d
  else if i < 60 then (b &&& c) ||| (b &&& d) ||| (c &&& d)
  else b ^^^ c ^^^ d

/-- Round constants. -/
def sha1K (i : Nat) : Nat :=
  if i < 20 then 1518500249
  else if i < 40 then 1859775393
  else if i < 60 then 2400959708
  else 3395469782

/-- `k` remaining rounds starting at round index `i`. -/
def sha1Rounds (w : List Nat) : Nat → Nat → Nat × Nat × Nat × Nat × Nat →
    Nat × Nat × Nat × Nat × Nat
  | 0, _, st => st
  | k + 1, i, (a, b, c, d, e) =>
      let t := maskW (rotl 5 a + sha1F i b c d + e + sha1K i + w.getD i 0)
      sha1Rounds w k (i + 1) (t, a, rotl 30 b, c, d)

/-- Compress one 64-byte chunk into the running state. -/
def sha1Compress (st : Nat × Nat × Nat × Nat × Nat) (chunk : List Nat) :
    Nat × Nat × Nat × Nat × Nat :=
  let w := sha1Extend 64 (beWords chunk)
  let (h0, h1, h2, h3, h4) := st
  let (a, b, c, d, e) := sha1Rounds w 80 0 (h0, h1, h2, h3, h4)
  (maskW (h0 + a), maskW (h1 + b), maskW (h2 + c), maskW (h3 + d), maskW (h4 + e))

/-- SHA-1 digest (20 bytes) of a byte message. -/
def sha1Bytes (msg : List Nat) : List Nat :=
  let st := (chunks64 (sha1Pad msg)).foldl sha1Compress
    (1732584193, 4023233417, 2562383102, 271733878, 3285377520)
  be32 st.1 ++ be32 st.2.1 ++ be32 st.2.2.1 ++ be32 st.2.2.2.1 ++ be32 st.2.2.2.2

/-- Lowercase hex digit. -/
def hexChar (n : Nat) : Char :=
  if n < 10 then Char.ofNat (48 + n) else Char.ofNat (87 + n)

/-- Two lowercase hex digits of a byte. -/
def byteToHex (b : Nat) : List Char := [hexChar (b / 16 % 16), hexChar (b % 16)]

/-- Lowercase hex string of a byte list (`hexdigest`). -/
def bytesToHex (bs : List Nat) : String := String.mk (bs.flatMap byteToHex)

/-- UTF-8 encoding of one character (`str.encode("utf-8")`). -/
def utf8EncodeChar (c : Char) : List Nat :=
  let n := c.toNat
  if n < 128 then [n]
  else if n < 2048 then [192 ||| (n >>> 6), 128 ||| (n &&& 63)]
  else if n < 65536 then
    [224 ||| (n >>> 12), 128 ||| ((n >>> 6) &&& 63), 128 ||| (n &&& 63)]
  else
    [240 ||| (n >>> 18), 128 ||| ((n >>> 12) &&& 63),
     128 ||| ((n >>> 6) &&& 63), 128 ||| (n &&& 63)]

/-- UTF-8 bytes of a string. -/
def utf8Bytes (s : String) : List Nat := s.data.flatMap utf8EncodeChar

/-- `sha1_name`: stable hashed id from the full path string
(`hashlib.sha1(str(p).encode("utf-8")).hexdigest()`). -/
def sha1_name (p : String) : String := bytesToHex (sha1Bytes (utf8Bytes p))

/-- FIPS 180 test vector, checking the embedding of `hashlib.sha1`. -/
example : sha1_name "abc" = "a9993e364706816aba3e25717850c26c9cd0d89d" := by decide

/-! ## Radiometric Decoder (`read_tiff_temperature`)

A raw TIFF grid is a list of rows of digital numbers.  The source casts
to `float32` and computes `arr / 40.0 - 100.0` element-wise; the float
arithmetic is modelled exactly over `ℚ` (the sample values of interest,
e.g. `4000 / 40`, are exactly representable in `float32`). -/

/-- DN-to-degrees calibration applied to one sample. -/
def dnToDeg (dn : ℚ) : ℚ := dn / 40 - 100

/-- `read_tiff_temperature`: element-wise `arr / 40.0 - 100.0` over the
raw grid, dimensions untouched. -/
def read_tiff_temperature (grid : List (List ℚ)) : List (List ℚ) :=
  grid.map (List.map dnToDeg)

/-! ## Renderer (`colorize`, `save_float32_bin`) -/

/-- The render bounds `RENDER_MIN` / `RENDER_MAX` of the source. -/
def RENDER_MIN : ℚ := 24
def RENDER_MAX : ℚ := 50

/-- The `1e-9` guard added to the denominator in `colorize`. -/
def EPS : ℚ := 1 / 1000000000

/-- `np.clip (· , 0.0, 1.0)`. -/
def clip01 (x : ℚ) : ℚ := min (max x 0) 1

/-- The normalization `colorize` feeds to the colormap:
`np.clip((temp - vmin) / (vmax - vmin + 1e-9), 0.0, 1.0)`, with the
scalar denominator kept exactly.  In the program the denominator is
computed in float64 and cast to float32 for the element-wise division,
which rounds the `1e-9` guard away whenever `vmax - vmin` is not tiny;
this exact-rational form is therefore faithful in the degenerate
`vmax == vmin` regime the guard exists for, while the float32-faithful
fixed-range normalization is `colorizeNormFixed` below. -/
def colorizeNorm (vmin vmax v : ℚ) : ℚ :=
  clip01 ((v - vmin) / (vmax - vmin + EPS))

/-- `colorize`: the colormap (an arbitrary function out of the
normalized scalar, standing for matplotlib's `turbo` lookup) applied to
the normalized value of every pixel. -/
def colorize {α : Type} (cmap : ℚ → α) (vmin vmax : ℚ)
    (temp : List (List ℚ)) : List (List α) :=
  temp.map (List.map (fun v => cmap (colorizeNorm vmin vmax v)))

/-- Modelled from the spec: the normalization the spec's words
prescribe for the Renderer, `clamp((value - vmin) / (vmax - vmin), 0, 1)`
with no epsilon term — kept for comparison with the code's
normalization. -/
def specNorm (vmin vmax v : ℚ) : ℚ := clip01 ((v - vmin) / (vmax - vmin))

/-- Round-to-nearest float32 for values in the binade `[16, 32)`, where
consecutive float32 values are `2^-19 = 1/524288` apart: scale to an
integer significand, round to nearest, scale back.  (`round` breaks
ties upward while IEEE breaks them to even, but the inputs used below
are nowhere near a tie.) -/
def roundF32Binade16 (x : ℚ) : ℚ := (round (x * 524288) : ℚ) / 524288

/-- The denominator the program actually divides by at the fixed
render range: numpy computes the Python-float scalar
`RENDER_MAX - RENDER_MIN + 1e-9` in float64 and casts it to float32
before the element-wise division over the float32 array (value-based
casting pre-NEP 50, weak scalars after), and `26 + 1e-9` lies in the
binade `[16, 32)`. -/
def denomF32 : ℚ := roundF32Binade16 (RENDER_MAX - RENDER_MIN + EPS)

/-- The float32 execution of the `colorize` normalization at the
build's fixed range `[RENDER_MIN, RENDER_MAX]`: clamp of the
element-wise difference divided by the float32-cast denominator (the
element-wise subtraction and division at the probed values, e.g.
`50 - 24` and `26 / 26`, are exactly representable, hence exact). -/
def colorizeNormFixed (v : ℚ) : ℚ := clip01 ((v - RENDER_MIN) / denomF32)

/-- `colorize` as executed at the fixed render range: the colormap
applied to the float32-faithful normalization of every pixel. -/
def colorizeF32 {α : Type} (cmap : ℚ → α) (temp : List (List ℚ)) :
    List (List α) :=
  temp.map (List.map (fun v => cmap (colorizeNormFixed v)))

/-- Little-endian bytes of a 32-bit word (`float32` bit pattern). -/
def le32 (w : Nat) : List Nat :=
  [w % 256, w / 256 % 256, w / 65536 % 256, w / 16777216 % 256]

/-- `save_float32_bin`: `temp.astype("<f4").tofile(out)` writes the
row-major sequence of `float32` values as raw little-endian bytes with
no header.  A value is represented here by its 32-bit IEEE-754 bit
pattern (a `Nat < 2^32`); `astype("<f4")` only fixes byte order, so the
emitted buffer is the concatenation of the 4 little-endian bytes of
every pattern, row-major. -/
def save_float32_bin (temp : List (List Nat)) : List Nat :=
  temp.flatten.flatMap le32

/-- Reading the buffer back as consecutive little-endian 32-bit words
(the consumer side of the bit-exact contract). -/
def readLE32 : List Nat → List Nat
  | b0 :: b1 :: b2 :: b3 :: rest =>
      (b0 + 256 * b1 + 65536 * b2 + 16777216 * b3) :: readLE32 rest
  | _ => []

/-! ## Metadata Extractor (`parse_gps`, `meta_from_rgb`)

EXIF values are modelled by `PyVal`; a tag dictionary is an association
list whose keys are the tag names after the `ExifTags.TAGS` /
`ExifTags.GPSTAGS` renaming (a fixed injective relabeling of integer
tags, so modelling the dict directly over names is faithful; the lists
used in the theorems carry no duplicate keys).  Python exceptions are
`Except.error ()`. -/

/-- Python values as they occur in EXIF dictionaries: numbers (ints and
floats, both exact here), a `(numerator, denominator)` rational pair,
strings, byte strings, a 3-tuple of DMS components, a nested tag
dictionary, and `None`. -/
inductive PyVal : Type
  | num (q : ℚ)
  | pair (n d : ℚ)
  | str (s : String)
  | bytes (s : String)
  | triple (a b c : PyVal)
  | dict (entries : List (String × PyVal))
  | noneV

/-- Python truthiness of a `PyVal` (`if not gps_info`, `x or y`). -/
def isTruthy : PyVal → Bool
  | .num q => q ≠ 0
  | .pair _ _ => true
  | .str s => s ≠ ""
  | .bytes s => s ≠ ""
  | .triple _ _ _ => true
  | .dict entries => !entries.isEmpty
  | .noneV => false

/-- `str(v)` for the values the extractor stringifies (tag values that
are already strings pass through; `None` prints as `"None"`; other
shapes are not exercised by the metadata path and map to their rough
Python spelling). -/
def pyStr : PyVal → String
  | .str s => s
  | .noneV => "None"
  | .num q => toString q
  | .bytes s => s
  | _ => ""

/-- `d.get(k, dflt)` on a tag dictionary. -/
def pyGet (d : List (String × PyVal)) (k : String) (dflt : PyVal) : PyVal :=
  (d.lookup k).getD dflt

/-- `d[k]`: a missing key is a `KeyError`. -/
def getItem (d : List (String × PyVal)) (k : String) : Except Unit PyVal :=
  match d.lookup k with
  | some v => .ok v
  | none => .error ()

/-- `x or y`. -/
def pyOr (a b : PyVal) : PyVal := if isTruthy a then a else b

/-- `str.strip()`: drop leading and trailing whitespace. -/
def pyStrip (s : String) : String :=
  String.mk (((s.data.dropWhile Char.isWhitespace).reverse.dropWhile
    Char.isWhitespace).reverse)

/-- `_to_deg`: unpack `(n, d)` and return `n / d` (`0.0` when `d == 0`);
any other shape falls to `float(val)`, which succeeds on numbers and
raises on the rest (strings here stand for non-numeric text). -/
def toDeg : PyVal → Except Unit ℚ
  | .pair n d => .ok (if d = 0 then 0 else n / d)
  | .num q => .ok q
  | _ => .error ()

/-- `dms_to_deg`: index the three DMS components and combine them as
`d + m/60 + s/3600`; a value without three indexable components raises
(caught by the caller). -/
def dmsToDeg : PyVal → Except Unit ℚ
  | .triple a b c =>
    match toDeg a with
    | .error e => .error e
    | .ok d =>
      match toDeg b with
      | .error e => .error e
      | .ok m =>
        match toDeg c with
        | .error e => .error e
        | .ok s => .ok (d + m / 60 + s / 3600)
  | _ => .error ()

/-- Membership test `ref in ("S", b"S")`. -/
def isRefS : PyVal → Bool
  | .str s => s = "S"
  | .bytes s => s = "S"
  | _ => false

/-- Membership test `ref in ("W", b"W")`. -/
def isRefW : PyVal → Bool
  | .str s => s = "W"
  | .bytes s => s = "W"
  | _ => false

/-- The `try` block of `parse_gps`: look up and convert both DMS
triples, then negate by hemisphere reference (defaults `"N"` / `"E"`),
returning `(lon, lat)`. -/
def parseGpsInner (gps : List (String × PyVal)) : Except Unit (ℚ × ℚ) :=
  match getItem gps "GPSLatitude" with
  | .error e => .error e
  | .ok latRaw =>
    match dmsToDeg latRaw with
    | .error e => .error e
    | .ok lat0 =>
      match getItem gps "GPSLongitude" with
      | .error e => .error e
      | .ok lonRaw =>
        match dmsToDeg lonRaw with
        | .error e => .error e
        | .ok lon0 =>
          .ok (if isRefW (pyGet gps "GPSLongitudeRef" (.str "E")) then -lon0 else lon0,
               if isRefS (pyGet gps "GPSLatitudeRef" (.str "N")) then -lat0 else lat0)

/-- Collapse the caught `try` block to `None` on failure. -/
def exceptToOption {α : Type} : Except Unit α → Option α
  | .ok a => some a
  | .error _ => none

/-- `parse_gps`: a missing or falsy `GPSInfo` yields `None`; a `GPSInfo`
that is a tag mapping enters the guarded `try` block (whose failures all
collapse to `None`); a truthy `GPSInfo` of any other shape hits
`gps_info.items()` and raises `AttributeError`, which the source does
not catch. -/
def parse_gps (exif : List (String × PyVal)) : Except Unit (Option (ℚ × ℚ)) :=
  match exif.lookup "GPSInfo" with
  | none => .ok none
  | some gi =>
    if isTruthy gi then
      match gi with
      | .dict gps => .ok (exceptToOption (parseGpsInner gps))
      | _ => .error ()
    else .ok none

/-- The metadata record of a Shot (`meta` in `db.json`): camera string,
datetime string, optional `(lon, lat)`. -/
structure Meta where
  camera : String
  datetime : String
  gps : Option (ℚ × ℚ)
deriving DecidableEq

/-- The camera field: `" ".join([str(Make).strip(), str(Model).strip()]).strip()`. -/
def cameraOf (exif : List (String × PyVal)) : String :=
  pyStrip (pyStrip (pyStr (pyGet exif "Make" (.str ""))) ++ " " ++
    pyStrip (pyStr (pyGet exif "Model" (.str ""))))

/-- The datetime field: `str(DateTimeOriginal or DateTime or "")`. -/
def datetimeOf (exif : List (String × PyVal)) : String :=
  pyStr (pyOr (pyGet exif "DateTimeOriginal" .noneV)
    (pyOr (pyGet exif "DateTime" .noneV) (.str "")))

/-- `meta_from_rgb`: `none` stands for a missing path or file (the
source returns `{}`, read downstream as all-default fields).  Otherwise
the EXIF dictionary (already `{}` if unreadable, since `get_exif_dict`
catches everything) yields the camera and datetime strings above and
whatever `parse_gps` produces — whose exceptions propagate. -/
def meta_from_rgb (exifOpt : Option (List (String × PyVal))) : Except Unit Meta :=
  match exifOpt with
  | none => .ok ⟨"", "", none⟩
  | some exif =>
    match parse_gps exif with
    | .error e => .error e
    | .ok g => .ok ⟨cameraOf exif, datetimeOf exif, g⟩

/-! ## Manifest Builder (`build_site` main loop)

One capture set groups the paths sharing a stem (`find_triples`); an
RGB entry carries its path together with the EXIF dictionary that
reading the file yields (`get_exif_dict` never raises, so a dictionary
— possibly empty — always exists when the file does).  The loop walks
the stem-sorted sets, skips a set with no radiometric TIFF, and decodes,
extracts metadata, renders, and records a Shot; a Python exception
raised by any stage aborts the whole loop, which `Except` mirrors. -/

/-- One capture set: stem, optional radiometric TIFF path, optional
visible-light file (path and the EXIF dictionary read from it). -/
structure CaptureSet where
  stem : String
  tif : Option String
  rgb : Option (String × List (String × PyVal))

/-- The Shot record the loop appends to `db` (artifact paths that are
pure functions of the id are left implicit). -/
structure Shot where
  id : String
  stem : String
  rgb : Option String
  w : Nat
  h : Nat
  meta : Meta
deriving DecidableEq

/-- Destination filename of the copied visible-light file:
`sha1_name(rgb_path) + ".jpg"` — a hash of the path string. -/
def rgb_dest_name (p : String) : String := sha1_name p ++ ".jpg"

/-- The RGB copy step: `shutil.copy2` writes the source bytes unchanged
to `media/rgb/<hash>.jpg`.  `fs` maps a path to the file's bytes; the
result is the (destination path, written bytes) pair. -/
def copyRgb (fs : String → List Nat) (p : String) : String × List Nat :=
  ("media/rgb/" ++ rgb_dest_name p, fs p)

/-- Destination naming as a function of source path and content — the
content argument is ignored by the source code. -/
def rgbDestOfCopy (p : String) (_content : List Nat) : String := rgb_dest_name p

/-- Modelled from the spec: "copy the visible-light file unmodified to a
content-hashed destination name" — a naming scheme is content-hashed
when the destination name is determined by the content alone. -/
def ContentHashedNaming (name : String → List Nat → String) : Prop :=
  ∀ p₁ p₂ content, name p₁ content = name p₂ content

/-- The per-set build loop over the stem-sorted capture sets.  `decode`
stands for `read_tiff_temperature` on the filesystem (`Except.error` is
an exception escaping `tifffile`).  A set without a TIFF is skipped
(`continue`); decode and metadata exceptions propagate, aborting the
whole build; otherwise a Shot is recorded with `id = sha1_name(tif)`,
`h, w = temp.shape`, the copied-RGB relative path, and the metadata. -/
def processSets (decode : String → Except Unit (List (List ℚ))) :
    List CaptureSet → Except Unit (List Shot)
  | [] => .ok []
  | s :: rest =>
    match s.tif with
    | none => processSets decode rest
    | some p =>
      match decode p with
      | .error e => .error e
      | .ok temp =>
        match meta_from_rgb (s.rgb.map Prod.snd) with
        | .error e => .error e
        | .ok m =>
          match processSets decode rest with
          | .error e => .error e
          | .ok shots =>
            .ok ({ id := sha1_name p
                   stem := s.stem
                   rgb := s.rgb.map (fun r => "media/rgb/" ++ rgb_dest_name r.1)
                   w := (temp.headD []).length
                   h := temp.length
                   meta := m } :: shots)

/-! ## Theorems -/

/-- `clip01` keeps a value already in `[0, 1]`. -/
lemma clip01_of_mem (x : ℚ) (h0 : 0 ≤ x) (h1 : x ≤ 1) : clip01 x = x := by
  rw [clip01, max_eq_left h0, min_eq_left h1]

/-- `clip01` sends nonpositive values to `0`. -/
lemma clip01_of_nonpos (x : ℚ) (h : x ≤ 0) : clip01 x = 0 := by
  rw [clip01, max_eq_right h, min_eq_left (by norm_num : (0 : ℚ) ≤ 1)]

/-- `clip01` sends values at least `1` to `1`. -/
lemma clip01_of_ge_one (x : ℚ) (h : 1 ≤ x) : clip01 x = 1 := by
  rw [clip01, max_eq_left (le_trans (by norm_num) h), min_eq_right h]

/-- **C1**: the Radiometric Decoder applies
`temperature = digitalNumber / 40.0 - 100.0` element-wise, keeps the
source grid's dimensions, and the 2×2 grid `[4000, 4400, 4800, 5200]`
decodes to `[0.0, 10.0, 20.0, 30.0]` °C. -/
theorem c1_decoder_calibration :
    (∀ (g : List (List ℚ)) (i : Nat),
      (read_tiff_temperature g).length = g.length ∧
      (read_tiff_temperature g)[i]? =
        (g[i]?).map (List.map (fun dn => dn / 40 - 100)) ∧
      ((read_tiff_temperature g)[i]?).map List.length =
        (g[i]?).map List.length) ∧
    read_tiff_temperature [[4000, 4400], [4800, 5200]] = [[0, 10], [20, 30]] := by
  refine ⟨fun g i => ⟨by simp [read_tiff_temperature], ?_, ?_⟩,
    by norm_num [read_tiff_temperature, dnToDeg]⟩
  · simp only [read_tiff_temperature, List.getElem?_map]
    rfl
  · simp [read_tiff_temperature]
    cases g[i]? <;> simp

/-- **C6**: with `vmax = vmin` the denominator of the normalization is
the nonzero guard `vmax - vmin + 1e-9`, and `colorize` still returns an
image of the field's dimensions. -/
theorem c6_degenerate_range_guard {α : Type} (cmap : ℚ → α) (vmin : ℚ)
    (temp : List (List ℚ)) (i : Nat) :
    vmin - vmin + EPS ≠ 0 ∧
    (colorize cmap vmin vmin temp).length = temp.length ∧
    ((colorize cmap vmin vmin temp)[i]?).map List.length =
      (temp[i]?).map List.length := by
  refine ⟨by norm_num [EPS], by simp [colorize], ?_⟩
  simp [colorize]
  cases temp[i]? <;> simp

/-- The float32 cast of the guarded denominator at the fixed range is
exactly `26`: the guard `1e-9` is far below half an ULP at `26`. -/
lemma denomF32_eq : denomF32 = 26 := by
  rw [denomF32, roundF32Binade16, RENDER_MAX, RENDER_MIN, EPS]
  have hr : round (((50 : ℚ) - 24 + 1 / 1000000000) * 524288) = 13631488 := by
    rw [round_eq]
    have harg : ((50 : ℚ) - 24 + 1 / 1000000000) * 524288 + 1 / 2 =
        13631488 + (524288 / 1000000000 + 1 / 2) := by ring
    rw [harg, Int.floor_eq_iff]
    constructor <;> norm_num
  rw [hr]
  norm_num

/-- At the fixed range the executed normalization coincides with the
spec's epsilon-free clamp formula. -/
lemma colorizeNormFixed_eq_specNorm (v : ℚ) :
    colorizeNormFixed v = specNorm RENDER_MIN RENDER_MAX v := by
  rw [colorizeNormFixed, specNorm, denomF32_eq,
    show RENDER_MAX - RENDER_MIN = 26 by norm_num [RENDER_MIN, RENDER_MAX]]

/-- **C5**: at the fixed render range the float32 cast absorbs the
`1e-9` guard (the denominator is exactly `26.0f`), so each pixel is the
colormap evaluated at `clamp((v - vmin) / (vmax - vmin), 0, 1)`: a
value exactly at `vmin` renders to the colormap's 0.0 sample, a value
exactly at `vmax` renders to the 1.0 sample, values beyond either bound
clamp to them, and the normalized value never leaves `[0, 1]` (no
extrapolation or wrapping). -/
theorem c5_pixel_formula {α : Type} (cmap : ℚ → α) (v : ℚ) :
    denomF32 = RENDER_MAX - RENDER_MIN ∧
    colorizeF32 cmap [[v]] = [[cmap (specNorm RENDER_MIN RENDER_MAX v)]] ∧
    colorizeNormFixed RENDER_MIN = 0 ∧
    colorizeNormFixed RENDER_MAX = 1 ∧
    (v ≤ RENDER_MIN → colorizeNormFixed v = 0) ∧
    (RENDER_MAX ≤ v → colorizeNormFixed v = 1) ∧
    0 ≤ colorizeNormFixed v ∧ colorizeNormFixed v ≤ 1 := by
  refine ⟨by rw [denomF32_eq]; norm_num [RENDER_MIN, RENDER_MAX],
    by simp [colorizeF32, colorizeNormFixed_eq_specNorm], ?_, ?_, ?_, ?_, ?_, ?_⟩
  · rw [colorizeNormFixed, denomF32_eq,
      show ((RENDER_MIN : ℚ) - RENDER_MIN) / 26 = 0 by norm_num]
    exact clip01_of_nonpos 0 le_rfl
  · rw [colorizeNormFixed, denomF32_eq,
      show ((RENDER_MAX : ℚ) - RENDER_MIN) / 26 = 1 by
        norm_num [RENDER_MIN, RENDER_MAX]]
    exact clip01_of_ge_one 1 le_rfl
  · intro hv
    rw [colorizeNormFixed, denomF32_eq]
    refine clip01_of_nonpos _ (div_nonpos_of_nonpos_of_nonneg ?_ (by norm_num))
    have : v ≤ 24 := by norm_num [RENDER_MIN] at hv; exact hv
    norm_num [RENDER_MIN]
    linarith
  · intro hv
    rw [colorizeNormFixed, denomF32_eq]
    refine clip01_of_ge_one _ ?_
    rw [le_div_iff₀ (by norm_num)]
    have : (50 : ℚ) ≤ v := by norm_num [RENDER_MAX] at hv; exact hv
    norm_num [RENDER_MIN]
    linarith
  · rw [colorizeNormFixed, clip01]
    exact le_min (le_max_right _ _) (by norm_num)
  · rw [colorizeNormFixed, clip01]
    exact min_le_right _ _

/-- One little-endian quadruple parses back to its word. -/
lemma readLE32_le32_append (x : Nat) (l : List Nat) (hx : x < 4294967296) :
    readLE32 (le32 x ++ l) = x :: readLE32 l := by
  simp only [le32, List.cons_append, List.nil_append, readLE32, List.cons.injEq]
  exact ⟨by omega, rfl⟩

/-- Parsing inverts serialization on words below `2^32`. -/
lemma readLE32_flatMap_le32 (l : List Nat) (h : ∀ x ∈ l, x < 4294967296) :
    readLE32 (l.flatMap le32) = l := by
  induction l with
  | nil => rfl
  | cons x t ih =>
    rw [List.flatMap_cons, readLE32_le32_append x _ (h x (by simp)),
      ih (fun y hy => h y (by simp [hy]))]

/-- Four bytes per word. -/
lemma length_flatMap_le32 (l : List Nat) : (l.flatMap le32).length = 4 * l.length := by
  induction l with
  | nil => rfl
  | cons x t ih => simp only [List.flatMap_cons, List.length_append, ih, le32,
      List.length_cons, List.length_nil]; omega

/-- Flattening `h` rows of width `w` gives `h * w` samples. -/
lemma length_flatten_rows (rows : List (List Nat)) (w : Nat)
    (hw : ∀ r ∈ rows, r.length = w) : rows.flatten.length = rows.length * w := by
  induction rows with
  | nil => simp
  | cons r t ih =>
    simp only [List.flatten_cons, List.length_append, hw r (by simp),
      ih (fun r2 h2 => hw r2 (by simp [h2])), List.length_cons]
    ring

/-- **C2**: the raw buffer written for a `w × h` TemperatureField is
exactly `w * h` 4-byte little-endian 32-bit words, row-major, no
header — `w * h * 4` bytes in total — and parsing the buffer back as
little-endian 32-bit words recovers the field's row-major values
bit-for-bit (so equal within float32 representability). -/
theorem c2_buffer_contract (w h : Nat) (rows : List (List Nat))
    (hw : ∀ r ∈ rows, r.length = w) (hh : rows.length = h)
    (hbits : ∀ r ∈ rows, ∀ x ∈ r, x < 4294967296) :
    (save_float32_bin rows).length = w * h * 4 ∧
    readLE32 (save_float32_bin rows) = rows.flatten := by
  constructor
  · rw [save_float32_bin, length_flatMap_le32, length_flatten_rows rows w hw, hh]
    ring
  · refine readLE32_flatMap_le32 _ (fun x hx => ?_)
    obtain ⟨r, hr, hxr⟩ := List.mem_flatten.mp hx
    exact hbits r hr x hxr

/-- Witness for `c2_buffer_contract` on a 2×2 field of float32 bit
patterns (0.0, 10.0, 1.0, 100.0). -/
theorem c2_buffer_contract_witness :
    ((∀ r ∈ [[0, 1092616192], [1065353216, 1120403456]], r.length = 2) ∧
     ([[0, 1092616192], [1065353216, 1120403456]] : List (List Nat)).length = 2 ∧
     (∀ r ∈ [[0, 1092616192], [1065353216, 1120403456]],
        ∀ x ∈ r, x < 4294967296)) ∧
    (save_float32_bin [[0, 1092616192], [1065353216, 1120403456]]).length =
      2 * 2 * 4 ∧
    readLE32 (save_float32_bin [[0, 1092616192], [1065353216, 1120403456]]) =
      ([[0, 1092616192], [1065353216, 1120403456]] : List (List Nat)).flatten :=
  ⟨⟨by decide, by decide, by decide⟩,
   c2_buffer_contract 2 2 [[0, 1092616192], [1065353216, 1120403456]]
     (by decide) (by decide) (by decide)⟩

/-- Reduction of the guarded GPS block on parseable DMS triples with
both hemisphere references present. -/
lemma parseGpsInner_num (ld lm ls gd gm gs : ℚ) (latR lonR : String) :
    parseGpsInner
      [("GPSLatitude", .triple (.num ld) (.num lm) (.num ls)),
       ("GPSLongitude", .triple (.num gd) (.num gm) (.num gs)),
       ("GPSLatitudeRef", .str latR),
       ("GPSLongitudeRef", .str lonR)] =
    .ok (if lonR = "W" then -(gd + gm / 60 + gs / 3600) else gd + gm / 60 + gs / 3600,
         if latR = "S" then -(ld + lm / 60 + ls / 3600) else ld + lm / 60 + ls / 3600) := by
  by_cases hS : latR = "S" <;> by_cases hW : lonR = "W" <;>
    simp [parseGpsInner, getItem, List.lookup, dmsToDeg, toDeg, pyGet, isRefS,
      isRefW, hS, hW]

/-- Reduction of the guarded GPS block on the concrete DMS-rational
scenario (southern latitude, eastern longitude). -/
lemma parseGpsInner_example :
    parseGpsInner
      [("GPSLatitude", .triple (.pair 23 1) (.pair 30 1) (.pair 0 1)),
       ("GPSLongitude", .triple (.pair 121 1) (.pair 0 1) (.pair 0 1)),
       ("GPSLatitudeRef", .str "S"),
       ("GPSLongitudeRef", .str "E")] = .ok (121, -47 / 2) := by
  simp [parseGpsInner, getItem, List.lookup, dmsToDeg, toDeg, pyGet, isRefS, isRefW]
  norm_num

/-- **C7**: a GPS block with parseable DMS triples and hemisphere
reference letters parses to `degrees + minutes/60 + seconds/3600` per
axis, negated exactly when the latitude reference is `"S"` or the
longitude reference is `"W"` (the pair is returned as `(lon, lat)`);
in particular latitude `(23,30,0)` ref `"S"` with longitude `(121,0,0)`
ref `"E"` parses to `lat = -23.5`, `lon = 121.0`. -/
theorem c7_gps_dms_conversion (ld lm ls gd gm gs : ℚ) (latR lonR : String) :
    parse_gps [("GPSInfo", .dict
      [("GPSLatitude", .triple (.num ld) (.num lm) (.num ls)),
       ("GPSLongitude", .triple (.num gd) (.num gm) (.num gs)),
       ("GPSLatitudeRef", .str latR),
       ("GPSLongitudeRef", .str lonR)])] =
      .ok (some
        (if lonR = "W" then -(gd + gm / 60 + gs / 3600) else gd + gm / 60 + gs / 3600,
         if latR = "S" then -(ld + lm / 60 + ls / 3600) else ld + lm / 60 + ls / 3600)) ∧
    parse_gps [("GPSInfo", .dict
      [("GPSLatitude", .triple (.pair 23 1) (.pair 30 1) (.pair 0 1)),
       ("GPSLongitude", .triple (.pair 121 1) (.pair 0 1) (.pair 0 1)),
       ("GPSLatitudeRef", .str "S"),
       ("GPSLongitudeRef", .str "E")])] = .ok (some (121, -47 / 2)) := by
  constructor
  · simp [parse_gps, List.lookup, isTruthy, exceptToOption, parseGpsInner_num]
  · simp [parse_gps, List.lookup, isTruthy, exceptToOption, parseGpsInner_example]

/-- **C10**: when `GPSLatitude` and `GPSLongitude` parse but the
hemisphere reference tags are absent, the defaults `"N"` / `"E"` apply:
a coordinate is still returned with neither axis negated. -/
theorem c10_missing_refs_default (ld lm ls gd gm gs : ℚ) :
    parse_gps [("GPSInfo", .dict
      [("GPSLatitude", .triple (.num ld) (.num lm) (.num ls)),
       ("GPSLongitude", .triple (.num gd) (.num gm) (.num gs))])] =
      .ok (some (gd + gm / 60 + gs / 3600, ld + lm / 60 + ls / 3600)) := by
  simp [parse_gps, List.lookup, isTruthy, exceptToOption, parseGpsInner, getItem,
    dmsToDeg, toDeg, pyGet, isRefS, isRefW]

/-- The region of EXIF inputs on which `parse_gps` cannot raise: the
`GPSInfo` entry is absent, falsy, or an actual tag mapping. -/
def gpsInfoSafe (exif : List (String × PyVal)) : Bool :=
  match exif.lookup "GPSInfo" with
  | none => true
  | some gi => !isTruthy gi || (match gi with | .dict _ => true | _ => false)

/-- On the safe region `parse_gps` returns without raising. -/
lemma parse_gps_ok_of_safe (exif : List (String × PyVal))
    (h : gpsInfoSafe exif = true) : ∃ g, parse_gps exif = .ok g := by
  rw [gpsInfoSafe] at h
  rw [parse_gps]
  rcases hl : exif.lookup "GPSInfo" with _ | gi
  · exact ⟨none, rfl⟩
  · simp only [hl] at h ⊢
    cases hti : isTruthy gi
    · simp [hti]
    · simp only [hti, Bool.not_true, Bool.false_or] at h
      cases gi <;> simp_all

/-- A failure anywhere inside the guarded GPS block (missing tags,
malformed rationals) is caught and collapses to `None`. -/
lemma parse_gps_none_of_inner_fail (exif gps : List (String × PyVal)) (e : Unit)
    (hGI : exif.lookup "GPSInfo" = some (.dict gps))
    (hbad : parseGpsInner gps = .error e) :
    parse_gps exif = .ok none := by
  rw [parse_gps]
  simp only [hGI]
  cases hti : isTruthy (.dict gps) <;> simp [hti, hbad, exceptToOption]

/-- **C4** (amended): metadata extraction degrades rather than raising
whenever the `GPSInfo` entry is absent, falsy, or a tag mapping: a
missing file or an empty EXIF dictionary yields the empty camera
string, empty datetime, and no geolocation; a failure inside
`parse_gps`'s guarded block yields the best-effort camera and datetime
with absent geolocation; and the build still produces a Shot for such a
capture set, recording that degraded metadata.  But extraction is not
"never raises": a truthy non-mapping `GPSInfo` value makes `parse_gps`
raise and the error propagates out of `meta_from_rgb`. -/
theorem c4_amended (exif exifFail gpsBad : List (String × PyVal))
    (st p rp : String) (temp : List (List ℚ)) (e : Unit)
    (decode : String → Except Unit (List (List ℚ)))
    (hsafe : gpsInfoSafe exif = true)
    (hGI : exifFail.lookup "GPSInfo" = some (.dict gpsBad))
    (hbad : parseGpsInner gpsBad = .error e)
    (hd : decode p = .ok temp) :
    (∃ m : Meta, meta_from_rgb (some exif) = .ok m) ∧
    meta_from_rgb none = .ok ⟨"", "", none⟩ ∧
    meta_from_rgb (some []) = .ok ⟨"", "", none⟩ ∧
    meta_from_rgb (some exifFail) =
      .ok ⟨cameraOf exifFail, datetimeOf exifFail, none⟩ ∧
    processSets decode [⟨st, some p, some (rp, exifFail)⟩] =
      .ok [⟨sha1_name p, st, some ("media/rgb/" ++ rgb_dest_name rp),
            (temp.headD []).length, temp.length,
            ⟨cameraOf exifFail, datetimeOf exifFail, none⟩⟩] := by
  have hfail : meta_from_rgb (some exifFail) =
      .ok ⟨cameraOf exifFail, datetimeOf exifFail, none⟩ := by
    have hg := parse_gps_none_of_inner_fail exifFail gpsBad e hGI hbad
    unfold meta_from_rgb
    simp only [hg]
  refine ⟨?_, rfl, by rfl, hfail, ?_⟩
  · obtain ⟨g, hg⟩ := parse_gps_ok_of_safe exif hsafe
    unfold meta_from_rgb
    simp only [hg]
    exact ⟨_, rfl⟩
  · simp [processSets, hd, hfail]

/-- Witness for `c4_amended`: a safe EXIF dictionary whose `GPSInfo` is
an (empty, hence falsy) tag mapping, plus a capture set whose EXIF
carries a `GPSInfo` mapping with a malformed `GPSLatitude`. -/
theorem c4_amended_witness :
    (gpsInfoSafe [("Make", PyVal.str "FLIR"), ("GPSInfo", PyVal.dict [])] = true ∧
     List.lookup "GPSInfo"
       [("Make", PyVal.str "FLIR"),
        ("GPSInfo", PyVal.dict [("GPSLatitude", PyVal.str "bad")])] =
       some (PyVal.dict [("GPSLatitude", PyVal.str "bad")]) ∧
     parseGpsInner [("GPSLatitude", PyVal.str "bad")] = .error () ∧
     (fun _ : String => (.ok [[4000]] : Except Unit (List (List ℚ)))) "t.tif" =
       .ok [[4000]]) ∧
    ((∃ m : Meta, meta_from_rgb
        (some [("Make", PyVal.str "FLIR"), ("GPSInfo", PyVal.dict [])]) = .ok m) ∧
     meta_from_rgb none = .ok ⟨"", "", none⟩ ∧
     meta_from_rgb (some []) = .ok ⟨"", "", none⟩ ∧
     meta_from_rgb (some [("Make", PyVal.str "FLIR"),
        ("GPSInfo", PyVal.dict [("GPSLatitude", PyVal.str "bad")])]) =
       .ok ⟨cameraOf [("Make", PyVal.str "FLIR"),
              ("GPSInfo", PyVal.dict [("GPSLatitude", PyVal.str "bad")])],
            datetimeOf [("Make", PyVal.str "FLIR"),
              ("GPSInfo", PyVal.dict [("GPSLatitude", PyVal.str "bad")])], none⟩ ∧
     processSets (fun _ : String => (.ok [[4000]] : Except Unit (List (List ℚ))))
       [⟨"s", some "t.tif",
         some ("r.jpg", [("Make", PyVal.str "FLIR"),
           ("GPSInfo", PyVal.dict [("GPSLatitude", PyVal.str "bad")])])⟩] =
       .ok [⟨sha1_name "t.tif", "s", some ("media/rgb/" ++ rgb_dest_name "r.jpg"),
             (([[4000]] : List (List ℚ)).headD []).length,
             ([[4000]] : List (List ℚ)).length,
             ⟨cameraOf [("Make", PyVal.str "FLIR"),
                ("GPSInfo", PyVal.dict [("GPSLatitude", PyVal.str "bad")])],
              datetimeOf [("Make", PyVal.str "FLIR"),
                ("GPSInfo", PyVal.dict [("GPSLatitude", PyVal.str "bad")])],
              none⟩⟩]) :=
  ⟨⟨rfl, rfl, rfl, rfl⟩,
   c4_amended [("Make", PyVal.str "FLIR"), ("GPSInfo", PyVal.dict [])]
     [("Make", PyVal.str "FLIR"),
      ("GPSInfo", PyVal.dict [("GPSLatitude", PyVal.str "bad")])]
     [("GPSLatitude", PyVal.str "bad")] "s" "t.tif" "r.jpg" [[4000]] ()
     (fun _ => .ok [[4000]]) rfl rfl rfl rfl⟩

/-- **C4** (counterexample): an EXIF block whose `GPSInfo` entry is a
truthy non-mapping (as PIL yields when the GPS IFD is left as a raw
offset) makes metadata extraction raise: `meta_from_rgb` propagates the
`AttributeError` from `gps_info.items()`, and the enclosing build
aborts instead of still producing a Shot. -/
theorem c4_counterexample :
    meta_from_rgb (some [("GPSInfo", PyVal.num 42)]) = .error () ∧
    processSets (fun _ => .ok [[4000]])
      [⟨"a", some "a-radiometric.tif",
        some ("a-visible.jpg", [("GPSInfo", PyVal.num 42)])⟩] = .error () := by
  exact ⟨rfl, rfl⟩

/-- **C3** (counterexample): a decode failure on the first CaptureSet
aborts the whole build — the result is an error, not a Shot list, so the
second set's Shot is not produced, contradicting the claimed
skip-and-continue behaviour. -/
theorem c3_counterexample :
    processSets
      (fun p => if p = "in/a-radiometric.tif" then .error () else .ok [[4000]])
      [⟨"a", some "in/a-radiometric.tif", none⟩,
       ⟨"b", some "in/b-radiometric.tif", none⟩] = .error () := by
  rfl

/-- **C3** (amended): `read_tiff_temperature` is called with no
exception handling, so a decode failure propagates and aborts the whole
build (no Shot is produced for any set); only a CaptureSet lacking a
radiometric TIFF is skipped with processing continuing on the rest. -/
theorem c3_amended (decode : String → Except Unit (List (List ℚ)))
    (s s2 : CaptureSet) (rest r2 : List CaptureSet) (p : String) (e : Unit)
    (htif : s.tif = some p) (herr : decode p = .error e) (h2 : s2.tif = none) :
    processSets decode (s :: rest) = .error e ∧
    processSets decode (s2 :: r2) = processSets decode r2 := by
  constructor
  · rw [processSets, htif]
    simp only [herr]
  · rw [processSets, h2]

/-- Witness for `c3_amended` with a decoder failing on the only TIFF. -/
theorem c3_amended_witness :
    processSets (fun _ => .error ())
      [⟨"a", some "in/a-radiometric.tif", none⟩] = .error () ∧
    processSets (fun _ => .error ())
      (⟨"b", none, none⟩ :: [⟨"c", some "x.tif", none⟩]) =
      processSets (fun _ => .error ()) [⟨"c", some "x.tif", none⟩] :=
  c3_amended (fun _ => .error ()) ⟨"a", some "in/a-radiometric.tif", none⟩
    ⟨"b", none, none⟩ [] [⟨"c", some "x.tif", none⟩]
    "in/a-radiometric.tif" () rfl rfl rfl

/-- A SHA-1 digest is 20 bytes. -/
lemma length_sha1Bytes (msg : List Nat) : (sha1Bytes msg).length = 20 := by
  simp [sha1Bytes, be32]

/-- Hex encoding yields two characters per byte. -/
lemma length_bytesToHex (bs : List Nat) : (bytesToHex bs).length = 2 * bs.length := by
  induction bs with
  | nil => rfl
  | cons b t ih =>
    simp only [bytesToHex, String.length, List.flatMap_cons, List.length_append,
      byteToHex, List.length_cons, List.length_nil] at ih ⊢
    omega

/-- Every hex digit lands in `"0123456789abcdef"`. -/
lemma hexChar_mem (n : Nat) (h : n < 16) :
    "0123456789abcdef".data.contains (hexChar n) = true := by
  interval_cases n <;> decide

/-- A hex-encoded byte string uses only hex digits. -/
lemma bytesToHex_all_hex (bs : List Nat) :
    (bytesToHex bs).data.all (fun c => "0123456789abcdef".data.contains c) = true := by
  show ((bs.flatMap byteToHex).all fun c => "0123456789abcdef".data.contains c) = true
  induction bs with
  | nil => rfl
  | cons b t ih =>
    rw [List.flatMap_cons, List.all_append, ih, Bool.and_true]
    have h1 := hexChar_mem (b / 16 % 16) (Nat.mod_lt _ (by norm_num))
    have h2 := hexChar_mem (b % 16) (Nat.mod_lt _ (by norm_num))
    show (List.all [hexChar (b / 16 % 16), hexChar (b % 16)]
      fun c => "0123456789abcdef".data.contains c) = true
    rw [List.all_cons, List.all_cons, List.all_nil]
    simp only [h1, h2, Bool.and_true]

/-- **C8**: the Shot id recorded by the build is `sha1_name` of the
radiometric file's full path — a deterministic 40-character lowercase
hex SHA-1 fingerprint — so equal paths give equal ids across rebuilds
while the two same-stem paths `/data/siteA/a-radiometric.tif` and
`/data/siteB/a-radiometric.tif` receive different ids. -/
theorem c8_shot_id_path_hash (p q st pp : String)
    (decode : String → Except Unit (List (List ℚ))) (temp : List (List ℚ))
    (hpq : p = q) (hd : decode pp = .ok temp) :
    sha1_name p = sha1_name q ∧
    (sha1_name p).length = 40 ∧
    (sha1_name p).data.all (fun c => "0123456789abcdef".data.contains c) = true ∧
    sha1_name "/data/siteA/a-radiometric.tif" ≠
      sha1_name "/data/siteB/a-radiometric.tif" ∧
    processSets decode [⟨st, some pp, none⟩] =
      .ok [⟨sha1_name pp, st, none, (temp.headD []).length, temp.length,
            ⟨"", "", none⟩⟩] := by
  refine ⟨congrArg sha1_name hpq, ?_, bytesToHex_all_hex _, by decide, ?_⟩
  · rw [sha1_name, length_bytesToHex, length_sha1Bytes]
  · simp [processSets, hd]
    rfl

/-- Witness for `c8_shot_id_path_hash` on concrete path and decoder. -/
theorem c8_shot_id_path_hash_witness :
    sha1_name "a" = sha1_name "a" ∧
    (sha1_name "a").length = 40 ∧
    (sha1_name "a").data.all (fun c => "0123456789abcdef".data.contains c) = true ∧
    sha1_name "/data/siteA/a-radiometric.tif" ≠
      sha1_name "/data/siteB/a-radiometric.tif" ∧
    processSets (fun _ => .ok [[4000]]) [⟨"s", some "t.tif", none⟩] =
      .ok [⟨sha1_name "t.tif", "s", none, (([[4000]] : List (List ℚ)).headD []).length,
            ([[4000]] : List (List ℚ)).length, ⟨"", "", none⟩⟩] :=
  c8_shot_id_path_hash "a" "a" "s" "t.tif" (fun _ => .ok [[4000]]) [[4000]] rfl rfl

/-- **C9** (counterexample): the visible-light copy's destination name
is not content-hashed: the naming function ignores the content and
hashes the path, so the same bytes at two different paths get two
different destination names. -/
theorem c9_counterexample : ¬ ContentHashedNaming rgbDestOfCopy := by
  intro hc
  have h := hc "/in/x-visible.jpg" "/in/y-visible.jpg" []
  rw [rgbDestOfCopy, rgbDestOfCopy, rgb_dest_name, rgb_dest_name] at h
  have hne : sha1_name "/in/x-visible.jpg" ++ ".jpg" ≠
      sha1_name "/in/y-visible.jpg" ++ ".jpg" := by decide
  exact hne h

/-- **C9** (amended): the visible-light file is copied byte-identically
to `media/rgb/<hash>.jpg` where `<hash>` is the SHA-1 of the *path*
string (not of the content — the name is invariant under content
changes), and that destination is recorded as the Shot's rgb artifact
path. -/
theorem c9_amended (fs : String → List Nat) (st p rp : String)
    (exif : List (String × PyVal)) (temp : List (List ℚ)) (m : Meta)
    (decode : String → Except Unit (List (List ℚ))) (body1 body2 : List Nat)
    (hd : decode p = .ok temp) (hm : meta_from_rgb (some exif) = .ok m) :
    (copyRgb fs rp).2 = fs rp ∧
    (copyRgb fs rp).1 = "media/rgb/" ++ rgb_dest_name rp ∧
    rgbDestOfCopy rp body1 = rgbDestOfCopy rp body2 ∧
    rgb_dest_name rp = sha1_name rp ++ ".jpg" ∧
    processSets decode [⟨st, some p, some (rp, exif)⟩] =
      .ok [⟨sha1_name p, st, some ("media/rgb/" ++ rgb_dest_name rp),
            (temp.headD []).length, temp.length, m⟩] := by
  refine ⟨rfl, rfl, rfl, rfl, ?_⟩
  simp [processSets, hd, hm]

/-- Witness for `c9_amended` on a concrete set with an RGB file. -/
theorem c9_amended_witness :
    (copyRgb (fun _ => [7, 7]) "r.jpg").2 = (fun _ => [7, 7]) "r.jpg" ∧
    (copyRgb (fun _ => [7, 7]) "r.jpg").1 = "media/rgb/" ++ rgb_dest_name "r.jpg" ∧
    rgbDestOfCopy "r.jpg" [] = rgbDestOfCopy "r.jpg" [0] ∧
    rgb_dest_name "r.jpg" = sha1_name "r.jpg" ++ ".jpg" ∧
    processSets (fun _ => .ok [[4000]]) [⟨"s", some "t.tif", some ("r.jpg", [])⟩] =
      .ok [⟨sha1_name "t.tif", "s", some ("media/rgb/" ++ rgb_dest_name "r.jpg"),
            (([[4000]] : List (List ℚ)).headD []).length,
            ([[4000]] : List (List ℚ)).length, ⟨"", "", none⟩⟩] :=
  c9_amended (fun _ => [7, 7]) "s" "t.tif" "r.jpg" [] [[4000]] ⟨"", "", none⟩
    (fun _ => .ok [[4000]]) [] [0] rfl rfl

end ThermalSite
